import Mathlib

set_option maxHeartbeats 1000000

namespace SnowRail

/-- JSON-like values, used for request and response bodies that the Python
code builds and parses as dynamically typed dictionaries and lists. -/
inductive Value where
  | null
  | bool (b : Bool)
  | int (n : Int)
  | str (s : String)
  | list (xs : List Value)
  | dict (kvs : List (String × Value))

/-- HTTP verbs used by the client (session.get / session.post). -/
inductive Verb where
  | get
  | post
deriving DecidableEq

/-- An HTTP request as the client issues it: verb, full URL, and optional
JSON body (an ordered list of key/value pairs, as the Python dict literal). -/
structure HttpRequest where
  verb : Verb
  url : String
  body : Option (List (String × Value))

/-- An HTTP response as seen by the client: status code and parsed JSON body. -/
structure HttpResponse where
  status : Nat
  body : Value

/-- The error raised by requests.Response.raise_for_status. -/
inductive ClientError where
  | httpError (status : Nat)
deriving DecidableEq

/-- requests.Response.raise_for_status: raises HTTPError for 4xx client
errors and 5xx server errors (400 ≤ status < 600), and returns normally for
every other status code. -/
def raise_for_status (status : Nat) : Option ClientError :=
  if 400 ≤ status ∧ status < 600 then some (.httpError status) else none

/-- One session request, as every SnowRailClient method performs it:
issue the request, call response.raise_for_status(), and on success return
response.json(). The first component records the list of requests issued
(always exactly the one). The server is modelled as a function from the
request to the response it returns. -/
def issue (req : HttpRequest) (server : HttpRequest → HttpResponse) :
    List HttpRequest × Except ClientError Value :=
  ([req],
    match raise_for_status (server req).status with
    | some e => .error e
    | none => .ok (server req).body)

/-- The client object: the state stored by SnowRailClient.__init__
that the request-building code reads (self.base_url). -/
structure SnowRailClient where
  base_url : String

/-- Python str.rstrip with a single-character strip set: removes every
trailing occurrence of the character c. -/
def pyRstrip (s : String) (c : Char) : String :=
  ⟨(s.data.reverse.dropWhile (fun a => a = c)).reverse⟩

/-- SnowRailClient.__init__ (client.py lines 30-42): stores
base_url.rstrip('/'). -/
def SnowRailClient.init (base_url : String) : SnowRailClient :=
  ⟨pyRstrip base_url '/'⟩

/-- Request built by validate_url (client.py lines 58-63):
POST base_url + "/v1/sentinel/validate" with JSON body
{"url": url, "amount": amount}; the amount argument defaults to 100. -/
def SnowRailClient.validate_url_req (c : SnowRailClient) (url : String)
    (amount : Int := 100) : HttpRequest :=
  { verb := .post
    url := c.base_url ++ "/v1/sentinel/validate"
    body := some [("url", .str url), ("amount", .int amount)] }

/-- SnowRailClient.validate_url (client.py lines 44-66). -/
def SnowRailClient.validate_url (c : SnowRailClient) (url : String)
    (amount : Int) (server : HttpRequest → HttpResponse) :
    List HttpRequest × Except ClientError Value :=
  issue (c.validate_url_req url amount) server

/-- Request built by create_intent (client.py lines 90-100):
POST base_url + "/v1/payments/x402/intent" with JSON body
{"url": url, "amount": amount, "sender": sender, "recipient": recipient}. -/
def SnowRailClient.create_intent_req (c : SnowRailClient) (url : String)
    (amount : Int) (sender : String) (recipient : String) : HttpRequest :=
  { verb := .post
    url := c.base_url ++ "/v1/payments/x402/intent"
    body := some [("url", .str url), ("amount", .int amount),
                  ("sender", .str sender), ("recipient", .str recipient)] }

/-- SnowRailClient.create_intent (client.py lines 68-103). -/
def SnowRailClient.create_intent (c : SnowRailClient) (url : String)
    (amount : Int) (sender : String) (recipient : String)
    (server : HttpRequest → HttpResponse) :
    List HttpRequest × Except ClientError Value :=
  issue (c.create_intent_req url amount sender recipient) server

/-- Request built by get_authorization (client.py lines 118-123):
POST base_url + "/v1/payments/x402/sign" with JSON body {"intentId": intent_id}. -/
def SnowRailClient.get_authorization_req (c : SnowRailClient)
    (intent_id : String) : HttpRequest :=
  { verb := .post
    url := c.base_url ++ "/v1/payments/x402/sign"
    body := some [("intentId", .str intent_id)] }

/-- SnowRailClient.get_authorization (client.py lines 105-126). -/
def SnowRailClient.get_authorization (c : SnowRailClient) (intent_id : String)
    (server : HttpRequest → HttpResponse) :
    List HttpRequest × Except ClientError Value :=
  issue (c.get_authorization_req intent_id) server

/-- Request built by confirm_payment (client.py lines 146-154):
POST base_url + "/v1/payments/x402/confirm" with JSON body
{"intentId": intent_id, "signature": signature}. -/
def SnowRailClient.confirm_payment_req (c : SnowRailClient)
    (intent_id : String) (signature : String) : HttpRequest :=
  { verb := .post
    url := c.base_url ++ "/v1/payments/x402/confirm"
    body := some [("intentId", .str intent_id), ("signature", .str signature)] }

/-- SnowRailClient.confirm_payment (client.py lines 128-157). -/
def SnowRailClient.confirm_payment (c : SnowRailClient) (intent_id : String)
    (signature : String) (server : HttpRequest → HttpResponse) :
    List HttpRequest × Except ClientError Value :=
  issue (c.confirm_payment_req intent_id signature) server

/-- Request built by get_intent_status (client.py lines 172-174):
GET base_url + "/v1/payments/x402/status/" + intent_id, with no body. -/
def SnowRailClient.get_intent_status_req (c : SnowRailClient)
    (intent_id : String) : HttpRequest :=
  { verb := .get
    url := c.base_url ++ "/v1/payments/x402/status/" ++ intent_id
    body := none }

/-- SnowRailClient.get_intent_status (client.py lines 159-177). -/
def SnowRailClient.get_intent_status (c : SnowRailClient) (intent_id : String)
    (server : HttpRequest → HttpResponse) :
    List HttpRequest × Except ClientError Value :=
  issue (c.get_intent_status_req intent_id) server

/-- Request built by health_check (client.py lines 189-191):
GET base_url + "/health", with no body. -/
def SnowRailClient.health_check_req (c : SnowRailClient) : HttpRequest :=
  { verb := .get
    url := c.base_url ++ "/health"
    body := none }

/-- SnowRailClient.health_check (client.py lines 179-194). -/
def SnowRailClient.health_check (c : SnowRailClient)
    (server : HttpRequest → HttpResponse) :
    List HttpRequest × Except ClientError Value :=
  issue c.health_check_req server

/-- Python errors that print_validation_result can raise. -/
inductive PyError where
  | keyError (k : String)
  | typeError
  | attributeError
deriving DecidableEq

/-- Python dict subscription d[k]: the value when the key is present,
KeyError when it is absent. The dict is the ordered key/value list. -/
def dictItem (kvs : List (String × Value)) (k : String) : Except PyError Value :=
  match kvs with
  | [] => .error (.keyError k)
  | (k', v) :: rest => if k' = k then .ok v else dictItem rest k

/-- Python dict.get(k, default): the value when the key is present, the
default otherwise, never an error. d.get(k) is dictGet d k Value.null. -/
def dictGet (kvs : List (String × Value)) (k : String) (dflt : Value) : Value :=
  match kvs with
  | [] => dflt
  | (k', v) :: rest => if k' = k then v else dictGet rest k dflt

/-- Python str.upper(): uppercases a string; on any non-string value the
attribute lookup .upper raises AttributeError. -/
def Value.upper : Value → Except PyError Value
  | .str s => .ok (.str (s.map Char.toUpper))
  | _ => .error .attributeError

/-- Python truthiness, as used by if-statements and conditional
expressions. -/
def Value.truthy : Value → Bool
  | .null => false
  | .bool b => b
  | .int n => n != 0
  | .str s => s != ""
  | .list xs => !xs.isEmpty
  | .dict kvs => !kvs.isEmpty

/-- Rendering of a value inside an f-string (Python str()). Nested
containers are abbreviated; only the scalar renderings matter here. -/
def Value.pyStr : Value → String
  | .null => "None"
  | .bool true => "True"
  | .bool false => "False"
  | .int n => toString n
  | .str s => s
  | .list _ => "[...]"
  | .dict _ => "\x7b...\x7d"

/-- Python iteration (for x in v): lists yield their elements, strings
their characters, dicts their keys; other values raise TypeError. -/
def Value.pyIter : Value → Except PyError (List Value)
  | .list xs => .ok xs
  | .str s => .ok (s.data.map (fun ch => .str ⟨[ch]⟩))
  | .dict kvs => .ok (kvs.map (fun p => .str p.1))
  | _ => .error .typeError

/-- The separator line '='*60 printed by print_validation_result. -/
def sepLine : String := ⟨List.replicate 60 '='⟩

/-- One iteration of the security-checks loop (client.py lines 220-222):
reads check['passed'], check['name'], check['score'] and renders the line. -/
def checkLine (check : Value) : Except PyError String := do
  let passed ← match check with
    | .dict kvs => dictItem kvs "passed"
    | _ => .error .typeError
  let nm ← match check with
    | .dict kvs => dictItem kvs "name"
    | _ => .error .typeError
  let score ← match check with
    | .dict kvs => dictItem kvs "score"
    | _ => .error .typeError
  pure ("  " ++ (if passed.truthy then "✓" else "✗") ++ " " ++ nm.pyStr ++
    ": " ++ score.pyStr ++ "/100")

/-- print_validation_result (client.py lines 197-224): pretty-prints a
validation result. Subscripted keys (url, canPay, trustScore, risk,
decision, duration) raise KeyError when absent; blockedReasons and warnings
are read with .get and skipped when absent or falsy; checks is read with
.get defaulting to the empty list. The result is the list of printed lines,
or the first Python error raised, in the source's evaluation order. -/
def print_validation_result (result : List (String × Value)) :
    Except PyError (List String) := do
  let url ← dictItem result "url"
  let canPay ← dictItem result "canPay"
  let trustScore ← dictItem result "trustScore"
  let risk ← dictItem result "risk"
  let riskU ← risk.upper
  let decision ← dictItem result "decision"
  let decisionU ← decision.upper
  let duration ← dictItem result "duration"
  let headLines : List String :=
    ["", sepLine, "VALIDATION RESULT", sepLine,
     "URL:         " ++ url.pyStr,
     "Can Pay:     " ++ (if canPay.truthy then "✓ YES" else "✗ NO"),
     "Trust Score: " ++ trustScore.pyStr ++ "/100",
     "Risk:        " ++ riskU.pyStr,
     "Decision:    " ++ decisionU.pyStr,
     "Duration:    " ++ duration.pyStr ++ "ms"]
  let br := dictGet result "blockedReasons" .null
  let brLines ←
    if br.truthy then do
      let items ← br.pyIter
      pure ("" :: "Blocked Reasons:" :: items.map (fun r => "  - " ++ r.pyStr))
    else pure []
  let w := dictGet result "warnings" .null
  let wLines ←
    if w.truthy then do
      let items ← w.pyIter
      pure ("" :: "Warnings:" :: items.map (fun wa => "  - " ++ wa.pyStr))
    else pure []
  let checks := dictGet result "checks" (.list [])
  let checkItems ← checks.pyIter
  let checkLines ← checkItems.mapM checkLine
  pure (headLines ++ brLines ++ wLines ++ ["", "Security Checks:"] ++
    checkLines ++ [sepLine, ""])

/-- Modelled from the spec: the intent lifecycle states of the Intent
Ledger (§4.2); the server code is not in the repository. -/
inductive IntentStatus where
  | pending
  | authorized
  | confirmed
  | expired
  | failed
deriving DecidableEq

/-- Modelled from the spec: a payment intent record (§3 PaymentIntent). -/
structure Intent where
  id : String
  url : String
  amount : Int
  sender : String
  recipient : String
  status : IntentStatus
  createdAt : Nat
  expiresAt : Nat
deriving DecidableEq

/-- Modelled from the spec: the receipt created exactly once when an
intent transitions to confirmed (§3 Receipt). -/
structure Receipt where
  txHash : String
  explorerUrl : String
  confirmedAt : Nat
  amount : Int
  recipient : String
deriving DecidableEq

/-- Modelled from the spec: the error kinds the confirm flow can report
(§7). -/
inductive ConfirmError where
  | notFound
  | invalidState
  | expired
  | invalidSignature
deriving DecidableEq

/-- Modelled from the spec: the signing payload bound to an intent — a
deterministic, injective encoding of (intentId, amount, sender, recipient,
expiresAt) (§4.3). -/
structure SigningPayload where
  intentId : String
  amount : Int
  sender : String
  recipient : String
  expiresAt : Nat
deriving DecidableEq

/-- Modelled from the spec: the signing payload recomputed from current
intent state (§4.4); it does not depend on the lifecycle status. -/
def payloadOf (i : Intent) : SigningPayload :=
  ⟨i.id, i.amount, i.sender, i.recipient, i.expiresAt⟩

/-- Modelled from the spec: the Intent Ledger state — intents and receipts
keyed by intent id, plus a count of settlements performed, used to express
that settlement occurs exactly once (§4.2, §4.4). -/
structure Ledger where
  intents : String → Option Intent
  receipts : String → Option Receipt
  settlements : Nat

/-- Modelled from the spec: the receipt produced by settlement (§4.4);
txHash and explorerUrl stand in for the on-chain submission outputs,
derived deterministically from the intent. -/
def mkReceipt (i : Intent) (now : Nat) : Receipt :=
  ⟨"0xtx:" ++ i.id, "https://explorer/tx/" ++ i.id, now, i.amount, i.recipient⟩

/-- Modelled from the spec: the Settlement Confirmer (§4.4, with the
state-machine and idempotency rules of §4.2): look up the intent (NotFound
if absent); a confirmed intent retried with a valid signature returns the
existing receipt without settling again; every other confirm attempt past
the intent's expiresAt is rejected with Expired (moving the intent to
expired); then the intent must be authorized (else InvalidState) and the
signature must verify against the intent's signing payload (else
InvalidSignature, moving it to failed); on success the settlement is
performed exactly once, a receipt is recorded, and the intent becomes
confirmed. -/
def confirm (verify : String → SigningPayload → Bool) (now : Nat) (L : Ledger)
    (intentId signature : String) : Ledger × Except ConfirmError Receipt :=
  match L.intents intentId with
  | none => (L, .error .notFound)
  | some intent =>
    if intent.status = .confirmed ∧ verify signature (payloadOf intent) = true then
      match L.receipts intentId with
      | some r => (L, .ok r)
      | none => (L, .error .invalidState)
    else if intent.expiresAt < now then
      ({ L with intents := fun j =>
          if j = intentId then some { intent with status := .expired }
          else L.intents j }, .error .expired)
    else if intent.status ≠ .authorized then (L, .error .invalidState)
    else if verify signature (payloadOf intent) then
      ({ intents := fun j =>
           if j = intentId then some { intent with status := .confirmed }
           else L.intents j
         receipts := fun j =>
           if j = intentId then some (mkReceipt intent now) else L.receipts j
         settlements := L.settlements + 1 }, .ok (mkReceipt intent now))
    else
      ({ L with intents := fun j =>
          if j = intentId then some { intent with status := .failed }
          else L.intents j }, .error .invalidSignature)

/-- Modelled from the spec: risk classification levels (§3). -/
inductive Risk where
  | low
  | medium
  | high
deriving DecidableEq

/-- Modelled from the spec: one security check of the URL Risk Evaluator
battery — its name, its aggregation weight, whether failing it is a
hard-block rule, and its outcome (passed, score out of 100) as a function
of (url, amount) (§4.1); the server code is not in the repository. -/
structure Check where
  name : String
  weight : Nat
  hardBlock : Bool
  run : String → Int → Bool × Fin 101

/-- Modelled from the spec: evaluator configuration — the fixed battery of
checks and the configurable minimum score for canPay (§4.1). -/
structure EvaluatorConfig where
  checks : List Check
  minScore : Nat

/-- Modelled from the spec: a named \x7bname, passed, score\x7d check outcome
as reported in a ValidationResult (§3). -/
structure CheckResult where
  name : String
  passed : Bool
  score : Nat
deriving DecidableEq

/-- Modelled from the spec: the ValidationResult computed per request
(§3), restricted to the fields the claims speak about. -/
structure ValidationResult where
  url : String
  trustScore : Nat
  risk : Risk
  canPay : Bool
  blockedReasons : List String
  checks : List CheckResult

/-- Modelled from the spec: the fixed risk-tier thresholds — score ≥ 70 is
low, 40–69 medium, below 40 high (§4.1). -/
def riskTier (score : Nat) : Risk :=
  if 70 ≤ score then .low else if 40 ≤ score then .medium else .high

/-- Modelled from the spec: whether some check fails a hard-block rule
(§4.1). -/
def hardBlockFailed (cfg : EvaluatorConfig) (url : String) (amount : Int) : Bool :=
  cfg.checks.any (fun c => c.hardBlock && !(c.run url amount).1)

/-- Modelled from the spec: the URL Risk Evaluator (§4.1): run the battery
of checks, aggregate the scores into a trustScore by the deterministic
weighted combination (weighted mean, in natural division), classify risk
by the fixed thresholds, and set canPay iff no check fails a hard-block
rule and the score reaches the configured minimum. -/
def evaluate (cfg : EvaluatorConfig) (url : String) (amount : Int) :
    ValidationResult :=
  let totalWeight := (cfg.checks.map (fun c => c.weight)).sum
  let weighted :=
    (cfg.checks.map (fun c => c.weight * ((c.run url amount).2).val)).sum
  let trustScore := weighted / totalWeight
  { url := url
    trustScore := trustScore
    risk := if 70 ≤ trustScore then .low
            else if 40 ≤ trustScore then .medium else .high
    canPay := !hardBlockFailed cfg url amount &&
      decide (cfg.minScore ≤ trustScore)
    blockedReasons :=
      (cfg.checks.filter (fun c => c.hardBlock && !(c.run url amount).1)).map
        (fun c => c.name)
    checks := cfg.checks.map
      (fun c => ⟨c.name, (c.run url amount).1, ((c.run url amount).2).val⟩) }

theorem issue_snd (req : HttpRequest) (server : HttpRequest → HttpResponse) :
    (issue req server).2 =
      if 400 ≤ (server req).status ∧ (server req).status < 600 then
        Except.error (ClientError.httpError (server req).status)
      else Except.ok (server req).body := by
  by_cases h : 400 ≤ (server req).status ∧ (server req).status < 600 <;>
    simp [issue, raise_for_status, h]

theorem issue_ok_of_2xx (req : HttpRequest) (server : HttpRequest → HttpResponse)
    (h1 : 200 ≤ (server req).status) (h2 : (server req).status < 300) :
    (issue req server).2 = Except.ok (server req).body := by
  rw [issue_snd, if_neg]
  omega

/-- C1: every SnowRailClient method issues exactly the request given by the
endpoint table of §6: validate_url POSTs \x7burl, amount\x7d to
/v1/sentinel/validate; create_intent POSTs \x7burl, amount, sender, recipient\x7d
to /v1/payments/x402/intent; get_authorization POSTs \x7bintentId\x7d to
/v1/payments/x402/sign; confirm_payment POSTs \x7bintentId, signature\x7d to
/v1/payments/x402/confirm; get_intent_status GETs
/v1/payments/x402/status/\x7bintentId\x7d; health_check GETs /health — each path
appended to the configured base_url. -/
theorem c1_endpoint_table (c : SnowRailClient)
    (url sender recipient intent_id signature : String) (amount : Int)
    (server : HttpRequest → HttpResponse) :
    (c.validate_url url amount server).1 =
      [⟨.post, c.base_url ++ "/v1/sentinel/validate",
        some [("url", .str url), ("amount", .int amount)]⟩] ∧
    (c.create_intent url amount sender recipient server).1 =
      [⟨.post, c.base_url ++ "/v1/payments/x402/intent",
        some [("url", .str url), ("amount", .int amount),
              ("sender", .str sender), ("recipient", .str recipient)]⟩] ∧
    (c.get_authorization intent_id server).1 =
      [⟨.post, c.base_url ++ "/v1/payments/x402/sign",
        some [("intentId", .str intent_id)]⟩] ∧
    (c.confirm_payment intent_id signature server).1 =
      [⟨.post, c.base_url ++ "/v1/payments/x402/confirm",
        some [("intentId", .str intent_id), ("signature", .str signature)]⟩] ∧
    (c.get_intent_status intent_id server).1 =
      [⟨.get, c.base_url ++ "/v1/payments/x402/status/" ++ intent_id, none⟩] ∧
    (c.health_check server).1 =
      [⟨.get, c.base_url ++ "/health", none⟩] :=
  ⟨rfl, rfl, rfl, rfl, rfl, rfl⟩

/-- C2 counterexample: the claim says every non-2xx response, including 3xx,
is raised as an error; but on a 304 Not Modified response (not 2xx) the
client returns the parsed body as a value, because
requests.Response.raise_for_status only raises for statuses in [400, 600). -/
theorem c2_counterexample :
    ((SnowRailClient.init "http://localhost:3000").health_check
        (fun _ => ⟨304, .str "cached"⟩)).2 = Except.ok (.str "cached") ∧
    ¬ (200 ≤ 304 ∧ 304 < 300) :=
  ⟨rfl, by decide⟩

/-- C2 amended: for every SnowRailClient method and every response, the
method raises an error exactly when the response status lies in [400, 600)
(4xx and 5xx), and returns the parsed JSON body for every other status —
so 2xx, and also 1xx and 3xx, are returned as values. -/
theorem c2_amended_error_iff_4xx_5xx (c : SnowRailClient)
    (url sender recipient intent_id signature : String) (amount : Int)
    (server : HttpRequest → HttpResponse) :
    ((c.validate_url url amount server).2 =
      (let r := server (c.validate_url_req url amount)
       if 400 ≤ r.status ∧ r.status < 600 then
         Except.error (ClientError.httpError r.status) else Except.ok r.body)) ∧
    ((c.create_intent url amount sender recipient server).2 =
      (let r := server (c.create_intent_req url amount sender recipient)
       if 400 ≤ r.status ∧ r.status < 600 then
         Except.error (ClientError.httpError r.status) else Except.ok r.body)) ∧
    ((c.get_authorization intent_id server).2 =
      (let r := server (c.get_authorization_req intent_id)
       if 400 ≤ r.status ∧ r.status < 600 then
         Except.error (ClientError.httpError r.status) else Except.ok r.body)) ∧
    ((c.confirm_payment intent_id signature server).2 =
      (let r := server (c.confirm_payment_req intent_id signature)
       if 400 ≤ r.status ∧ r.status < 600 then
         Except.error (ClientError.httpError r.status) else Except.ok r.body)) ∧
    ((c.get_intent_status intent_id server).2 =
      (let r := server (c.get_intent_status_req intent_id)
       if 400 ≤ r.status ∧ r.status < 600 then
         Except.error (ClientError.httpError r.status) else Except.ok r.body)) ∧
    ((c.health_check server).2 =
      (let r := server c.health_check_req
       if 400 ≤ r.status ∧ r.status < 600 then
         Except.error (ClientError.httpError r.status) else Except.ok r.body)) :=
  ⟨issue_snd _ server, issue_snd _ server, issue_snd _ server,
   issue_snd _ server, issue_snd _ server, issue_snd _ server⟩

/-- C3: every SnowRailClient method issues exactly one HTTP request (no
retry), and on a 2xx response it returns the server's parsed JSON body
unmodified. -/
theorem c3_single_request_pass_through (c : SnowRailClient)
    (url sender recipient intent_id signature : String) (amount : Int)
    (server : HttpRequest → HttpResponse) :
    ((c.validate_url url amount server).1.length = 1 ∧
      (200 ≤ (server (c.validate_url_req url amount)).status →
       (server (c.validate_url_req url amount)).status < 300 →
       (c.validate_url url amount server).2 =
         Except.ok (server (c.validate_url_req url amount)).body)) ∧
    ((c.create_intent url amount sender recipient server).1.length = 1 ∧
      (200 ≤ (server (c.create_intent_req url amount sender recipient)).status →
       (server (c.create_intent_req url amount sender recipient)).status < 300 →
       (c.create_intent url amount sender recipient server).2 =
         Except.ok (server (c.create_intent_req url amount sender recipient)).body)) ∧
    ((c.get_authorization intent_id server).1.length = 1 ∧
      (200 ≤ (server (c.get_authorization_req intent_id)).status →
       (server (c.get_authorization_req intent_id)).status < 300 →
       (c.get_authorization intent_id server).2 =
         Except.ok (server (c.get_authorization_req intent_id)).body)) ∧
    ((c.confirm_payment intent_id signature server).1.length = 1 ∧
      (200 ≤ (server (c.confirm_payment_req intent_id signature)).status →
       (server (c.confirm_payment_req intent_id signature)).status < 300 →
       (c.confirm_payment intent_id signature server).2 =
         Except.ok (server (c.confirm_payment_req intent_id signature)).body)) ∧
    ((c.get_intent_status intent_id server).1.length = 1 ∧
      (200 ≤ (server (c.get_intent_status_req intent_id)).status →
       (server (c.get_intent_status_req intent_id)).status < 300 →
       (c.get_intent_status intent_id server).2 =
         Except.ok (server (c.get_intent_status_req intent_id)).body)) ∧
    ((c.health_check server).1.length = 1 ∧
      (200 ≤ (server c.health_check_req).status →
       (server c.health_check_req).status < 300 →
       (c.health_check server).2 = Except.ok (server c.health_check_req).body)) :=
  ⟨⟨rfl, fun h1 h2 => issue_ok_of_2xx _ server h1 h2⟩,
   ⟨rfl, fun h1 h2 => issue_ok_of_2xx _ server h1 h2⟩,
   ⟨rfl, fun h1 h2 => issue_ok_of_2xx _ server h1 h2⟩,
   ⟨rfl, fun h1 h2 => issue_ok_of_2xx _ server h1 h2⟩,
   ⟨rfl, fun h1 h2 => issue_ok_of_2xx _ server h1 h2⟩,
   ⟨rfl, fun h1 h2 => issue_ok_of_2xx _ server h1 h2⟩⟩

/-- Witness for C3 at a concrete client and a server that always answers
204 with a null body: one request is issued and the body is returned. -/
theorem c3_witness :
    ((SnowRailClient.init "http://a").health_check
        (fun _ => ⟨204, .null⟩)).1.length = 1 ∧
    ((SnowRailClient.init "http://a").health_check
        (fun _ => ⟨204, .null⟩)).2 = Except.ok .null := by
  have h := c3_single_request_pass_through (SnowRailClient.init "http://a")
    "u" "s" "r" "i" "g" 5 (fun _ => ⟨204, .null⟩)
  exact ⟨h.2.2.2.2.2.1, h.2.2.2.2.2.2 (by decide) (by decide)⟩

theorem head_of_dropWhile_not {α : Type} (p : α → Bool) :
    ∀ (l : List α) (a : α), (l.dropWhile p).head? = some a → p a = false := by
  intro l
  induction l with
  | nil => intro a h; simp [List.dropWhile] at h
  | cons b t ih =>
    intro a h
    by_cases hb : p b
    · exact ih a (by simpa [List.dropWhile, hb] using h)
    · have hba : b = a := by simpa [List.dropWhile, hb] using h
      subst hba
      simpa using hb

theorem reverse_getLast?_eq_head? {α : Type} :
    ∀ l : List α, l.reverse.getLast? = l.head? := by
  intro l
  induction l with
  | nil => rfl
  | cons b t _ => simp

theorem reverse_eq_dropWhile_reverse_append {α : Type} [DecidableEq α] (c : α) :
    ∀ l : List α, ∃ k,
      l.reverse = (l.dropWhile (fun a => a = c)).reverse ++ List.replicate k c := by
  intro l
  induction l with
  | nil => exact ⟨0, rfl⟩
  | cons b t ih =>
    by_cases hb : b = c
    · obtain ⟨k, hk⟩ := ih
      refine ⟨k + 1, ?_⟩
      subst hb
      simp only [List.reverse_cons, List.dropWhile]
      rw [hk]
      simp [List.replicate_succ']
    · exact ⟨0, by simp [List.dropWhile, hb]⟩

theorem pyRstrip_append_slash (s : String) :
    pyRstrip (s ++ "/") '/' = pyRstrip s '/' := by
  have hdata : (s ++ "/").data = s.data ++ ['/'] := rfl
  simp [pyRstrip, hdata, List.dropWhile]

/-- C7: SnowRailClient.__init__ stores base_url with all trailing '/'
characters removed: the stored base_url never ends in '/', the given
base_url is the stored value followed by a run of '/' characters, a client
built from base_url ++ "/" equals one built from base_url, and consequently
every method builds identical requests for base URLs that differ only in
trailing slashes. -/
theorem c7_trailing_slash_invariance
    (s url sender recipient intent_id signature : String) (amount : Int) :
    (∃ k, s.data = (SnowRailClient.init s).base_url.data ++ List.replicate k '/') ∧
    (∀ a, (SnowRailClient.init s).base_url.data.getLast? = some a → a ≠ '/') ∧
    SnowRailClient.init (s ++ "/") = SnowRailClient.init s ∧
    (SnowRailClient.init (s ++ "/")).validate_url_req url amount =
      (SnowRailClient.init s).validate_url_req url amount ∧
    (SnowRailClient.init (s ++ "/")).create_intent_req url amount sender recipient =
      (SnowRailClient.init s).create_intent_req url amount sender recipient ∧
    (SnowRailClient.init (s ++ "/")).get_authorization_req intent_id =
      (SnowRailClient.init s).get_authorization_req intent_id ∧
    (SnowRailClient.init (s ++ "/")).confirm_payment_req intent_id signature =
      (SnowRailClient.init s).confirm_payment_req intent_id signature ∧
    (SnowRailClient.init (s ++ "/")).get_intent_status_req intent_id =
      (SnowRailClient.init s).get_intent_status_req intent_id ∧
    (SnowRailClient.init (s ++ "/")).health_check_req =
      (SnowRailClient.init s).health_check_req := by
  have hinit : SnowRailClient.init (s ++ "/") = SnowRailClient.init s := by
    show SnowRailClient.mk (pyRstrip (s ++ "/") '/') = SnowRailClient.mk (pyRstrip s '/')
    rw [pyRstrip_append_slash]
  refine ⟨?_, ?_, hinit, ?_, ?_, ?_, ?_, ?_, ?_⟩
  · obtain ⟨k, hk⟩ := reverse_eq_dropWhile_reverse_append '/' s.data.reverse
    refine ⟨k, ?_⟩
    show s.data = (s.data.reverse.dropWhile (fun a => a = '/')).reverse ++ List.replicate k '/'
    conv_lhs => rw [← List.reverse_reverse s.data]
    exact hk
  · intro a ha hac
    have hhead : (s.data.reverse.dropWhile (fun x => x = '/')).head? = some a := by
      rw [← reverse_getLast?_eq_head?]
      exact ha
    have := head_of_dropWhile_not (fun x => x = '/') s.data.reverse a hhead
    simp [hac] at this
  · rw [hinit]
  · rw [hinit]
  · rw [hinit]
  · rw [hinit]
  · rw [hinit]
  · rw [hinit]

/-- Witness for C7 at the concrete base URL "http://b/": its stored
base_url ends in 'b' (not '/'), and appending a slash to "http://b" gives
the same client. -/
theorem c7_witness :
    (SnowRailClient.init "http://b/").base_url.data.getLast? = some 'b' ∧
    'b' ≠ '/' ∧
    SnowRailClient.init ("http://b" ++ "/") = SnowRailClient.init "http://b" := by
  refine ⟨by decide, ?_, ?_⟩
  · exact (c7_trailing_slash_invariance "http://b/" "u" "s" "r" "i" "g" 5).2.1 'b'
      (by decide)
  · exact (c7_trailing_slash_invariance "http://b" "u" "s" "r" "i" "g" 5).2.2.1

/-- C9: calling validate_url with the amount argument omitted builds the
request body \x7b"url": url, "amount": 100\x7d — the amount defaults to 100. -/
theorem c9_default_amount (c : SnowRailClient) (url : String) :
    c.validate_url_req url =
      ⟨.post, c.base_url ++ "/v1/sentinel/validate",
       some [("url", .str url), ("amount", .int 100)]⟩ :=
  rfl

theorem dictItem_error_eq (kvs : List (String × Value)) (k : String) (e : PyError)
    (h : dictItem kvs k = .error e) : e = .keyError k := by
  induction kvs with
  | nil => simpa [dictItem] using h.symm
  | cons p rest ih =>
    by_cases hp : p.1 = k
    · simp [dictItem, hp] at h
    · exact ih (by simpa [dictItem, hp] using h)

theorem dictGet_of_absent (kvs : List (String × Value)) (k : String) (d : Value)
    (e : PyError) (h : dictItem kvs k = .error e) : dictGet kvs k d = d := by
  induction kvs with
  | nil => rfl
  | cons p rest ih =>
    by_cases hp : p.1 = k
    · simp [dictItem, hp] at h
    · have h2 := ih (by simpa [dictItem, hp] using h)
      simpa [dictGet, hp] using h2

/-- C8: for a dictionary holding the keys url, canPay, trustScore, risk,
decision and duration (risk and decision being strings),
print_validation_result completes without raising even when blockedReasons,
warnings and checks are all absent (they are read with .get and treated as
empty); and whenever any of those six required keys is missing (risk and
decision still strings when present), it raises a KeyError. -/
theorem c8_print_validation_result_keys (result : List (String × Value)) :
    (∀ u cp ts du : Value, ∀ rs ds : String,
      dictItem result "url" = .ok u →
      dictItem result "canPay" = .ok cp →
      dictItem result "trustScore" = .ok ts →
      dictItem result "risk" = .ok (.str rs) →
      dictItem result "decision" = .ok (.str ds) →
      dictItem result "duration" = .ok du →
      dictItem result "blockedReasons" = .error (.keyError "blockedReasons") →
      dictItem result "warnings" = .error (.keyError "warnings") →
      dictItem result "checks" = .error (.keyError "checks") →
      (print_validation_result result).isOk = true) ∧
    ((∀ v, dictItem result "risk" = .ok v → ∃ s, v = Value.str s) →
     (∀ v, dictItem result "decision" = .ok v → ∃ s, v = Value.str s) →
     (dictItem result "url" = .error (.keyError "url") ∨
      dictItem result "canPay" = .error (.keyError "canPay") ∨
      dictItem result "trustScore" = .error (.keyError "trustScore") ∨
      dictItem result "risk" = .error (.keyError "risk") ∨
      dictItem result "decision" = .error (.keyError "decision") ∨
      dictItem result "duration" = .error (.keyError "duration")) →
     ∃ k, print_validation_result result = .error (.keyError k)) := by
  constructor
  · intro u cp ts du rs ds hu hc ht hr hd hdu hbr hw hch
    have gbr := dictGet_of_absent result "blockedReasons" Value.null _ hbr
    have gw := dictGet_of_absent result "warnings" Value.null _ hw
    have gch := dictGet_of_absent result "checks" (Value.list []) _ hch
    simp [print_validation_result, hu, hc, ht, hr, hd, hdu, gbr, gw, gch,
      Value.upper, Value.truthy, Value.pyIter, Except.isOk, Except.toBool,
      Bind.bind, Except.bind, Pure.pure, Except.pure, List.mapM, List.mapM.loop]
  · intro hrisk hdec hmiss
    cases hu : dictItem result "url" with
    | error e =>
      obtain rfl := dictItem_error_eq result "url" e hu
      exact ⟨"url", by simp [print_validation_result, hu, Bind.bind, Except.bind]⟩
    | ok u =>
    cases hc : dictItem result "canPay" with
    | error e =>
      obtain rfl := dictItem_error_eq result "canPay" e hc
      exact ⟨"canPay",
        by simp [print_validation_result, hu, hc, Bind.bind, Except.bind]⟩
    | ok cp =>
    cases ht : dictItem result "trustScore" with
    | error e =>
      obtain rfl := dictItem_error_eq result "trustScore" e ht
      exact ⟨"trustScore",
        by simp [print_validation_result, hu, hc, ht, Bind.bind, Except.bind]⟩
    | ok ts =>
    cases hr : dictItem result "risk" with
    | error e =>
      obtain rfl := dictItem_error_eq result "risk" e hr
      exact ⟨"risk",
        by simp [print_validation_result, hu, hc, ht, hr, Bind.bind, Except.bind]⟩
    | ok rv =>
    obtain ⟨rs, rfl⟩ := hrisk rv hr
    cases hd : dictItem result "decision" with
    | error e =>
      obtain rfl := dictItem_error_eq result "decision" e hd
      exact ⟨"decision", by simp [print_validation_result, hu, hc, ht, hr, hd,
        Value.upper, Bind.bind, Except.bind]⟩
    | ok dv =>
    obtain ⟨ds, rfl⟩ := hdec dv hd
    cases hdu : dictItem result "duration" with
    | error e =>
      obtain rfl := dictItem_error_eq result "duration" e hdu
      exact ⟨"duration", by simp [print_validation_result, hu, hc, ht, hr, hd,
        hdu, Value.upper, Bind.bind, Except.bind]⟩
    | ok du =>
    rcases hmiss with h | h | h | h | h | h
    · simp [h] at hu
    · simp [h] at hc
    · simp [h] at ht
    · simp [h] at hr
    · simp [h] at hd
    · simp [h] at hdu

/-- Witness for C8: a complete six-key dictionary prints without raising,
and a dictionary missing canPay raises a KeyError. -/
theorem c8_witness :
    (print_validation_result
      [("url", .str "https://x"), ("canPay", .bool true),
       ("trustScore", .int 87), ("risk", .str "low"),
       ("decision", .str "allow"), ("duration", .int 3)]).isOk = true ∧
    ∃ k, print_validation_result [("url", .str "u")] =
      .error (.keyError k) := by
  constructor
  · exact (c8_print_validation_result_keys
      [("url", .str "https://x"), ("canPay", .bool true),
       ("trustScore", .int 87), ("risk", .str "low"),
       ("decision", .str "allow"), ("duration", .int 3)]).1
      (.str "https://x") (.bool true) (.int 87) (.int 3) "low" "allow"
      rfl rfl rfl rfl rfl rfl rfl rfl rfl
  · refine (c8_print_validation_result_keys [("url", .str "u")]).2
      ?_ ?_ (Or.inr (Or.inl rfl))
    · intro v h
      simp [dictItem] at h
    · intro v h
      simp [dictItem] at h

/-- C4: confirm is idempotent — for an authorized, unexpired intent and a
valid signature, confirming twice with the same (intentId, signature)
yields the same receipt both times, and settlement occurs exactly once
(the settlement counter rises by one after the first confirm and is
unchanged by the second). -/
theorem c4_confirm_idempotent (verify : String → SigningPayload → Bool)
    (now1 now2 : Nat) (L : Ledger) (intentId signature : String) (intent : Intent)
    (hfind : L.intents intentId = some intent)
    (hstatus : intent.status = .authorized)
    (hunexpired : ¬ intent.expiresAt < now1)
    (hsig : verify signature (payloadOf intent) = true) :
    (confirm verify now1 L intentId signature).2 = .ok (mkReceipt intent now1) ∧
    (confirm verify now2 (confirm verify now1 L intentId signature).1 intentId
        signature).2 = .ok (mkReceipt intent now1) ∧
    (confirm verify now1 L intentId signature).1.settlements = L.settlements + 1 ∧
    (confirm verify now2 (confirm verify now1 L intentId signature).1 intentId
        signature).1.settlements = L.settlements + 1 := by
  have key : confirm verify now1 L intentId signature =
      ({ intents := fun j =>
           if j = intentId then some { intent with status := .confirmed }
           else L.intents j
         receipts := fun j =>
           if j = intentId then some (mkReceipt intent now1) else L.receipts j
         settlements := L.settlements + 1 }, .ok (mkReceipt intent now1)) := by
    simp [confirm, hfind, hstatus, hunexpired, hsig]
  have hsig1 : verify signature
      (payloadOf { intent with status := IntentStatus.confirmed }) = true := by
    simpa [payloadOf] using hsig
  rw [key]
  refine ⟨rfl, ?_, rfl, ?_⟩
  · simp [confirm, hsig1]
  · simp [confirm, hsig1]

/-- Witness for C4: two confirms on a concrete authorized intent return
the same receipt and settle exactly once. -/
theorem c4_witness :
    (confirm (fun _ _ => true) 2
      (confirm (fun _ _ => true) 1
        ⟨fun j => if j = "i1" then
            some ⟨"i1", "https://m", 5, "0xs", "0xr", .authorized, 0, 10⟩
          else none, fun _ => none, 0⟩ "i1" "sig").1 "i1" "sig").2 =
      .ok (mkReceipt ⟨"i1", "https://m", 5, "0xs", "0xr", .authorized, 0, 10⟩ 1) ∧
    (confirm (fun _ _ => true) 2
      (confirm (fun _ _ => true) 1
        ⟨fun j => if j = "i1" then
            some ⟨"i1", "https://m", 5, "0xs", "0xr", .authorized, 0, 10⟩
          else none, fun _ => none, 0⟩ "i1" "sig").1 "i1" "sig").1.settlements =
      0 + 1 := by
  have h := c4_confirm_idempotent (fun _ _ => true) 1 2
    ⟨fun j => if j = "i1" then
        some ⟨"i1", "https://m", 5, "0xs", "0xr", .authorized, 0, 10⟩
      else none, fun _ => none, 0⟩ "i1" "sig"
    ⟨"i1", "https://m", 5, "0xs", "0xr", .authorized, 0, 10⟩
    (by simp) rfl (by decide) rfl
  exact ⟨h.2.1, h.2.2.2⟩

/-- C5 counterexample: the claim says a confirm attempt after expiresAt is
rejected with Expired even with a valid signature, and rejected whenever
the intent is not authorized; but a confirmed intent retried at time 20
(past its expiresAt = 10) with a valid signature returns the existing
receipt — the idempotent-confirm rule of the spec overrides both clauses
for confirmed intents. -/
theorem c5_counterexample :
    (confirm (fun _ _ => true) 20
      ⟨fun j => if j = "i1" then
          some ⟨"i1", "https://m", 5, "0xs", "0xr", .confirmed, 0, 10⟩ else none,
        fun j => if j = "i1" then
          some (mkReceipt ⟨"i1", "https://m", 5, "0xs", "0xr", .confirmed, 0, 10⟩ 3)
        else none, 1⟩
      "i1" "sig").2 =
      .ok (mkReceipt ⟨"i1", "https://m", 5, "0xs", "0xr", .confirmed, 0, 10⟩ 3) ∧
    (10 : Nat) < 20 ∧
    IntentStatus.confirmed ≠ IntentStatus.authorized := by
  refine ⟨?_, by decide, by decide⟩
  simp [confirm]

/-- C5 amended: for every intent, a confirm attempt made after the
recorded expiresAt is rejected with Expired even when the signature is
valid, and confirm is rejected whenever the intent is not in the
authorized state — except that a confirmed intent retried with a valid
signature returns the already-recorded receipt instead of an error
(idempotent confirm). -/
theorem c5_amended (verify : String → SigningPayload → Bool) (now : Nat)
    (L : Ledger) (intentId signature : String) (intent : Intent)
    (hfind : L.intents intentId = some intent) :
    (intent.expiresAt < now →
      (intent.status ≠ .confirmed ∨ verify signature (payloadOf intent) = false) →
      (confirm verify now L intentId signature).2 = .error .expired) ∧
    (intent.status ≠ .authorized →
      (intent.status ≠ .confirmed ∨ verify signature (payloadOf intent) = false) →
      ∃ e, (confirm verify now L intentId signature).2 = .error e) ∧
    (intent.status = .confirmed → verify signature (payloadOf intent) = true →
      ∀ r, L.receipts intentId = some r →
      (confirm verify now L intentId signature).2 = .ok r) := by
  refine ⟨?_, ?_, ?_⟩
  · intro h1 h2
    rcases h2 with h2 | h2 <;> simp [confirm, hfind, h1, h2]
  · intro h1 h2
    by_cases hexp : intent.expiresAt < now
    · exact ⟨.expired,
        by rcases h2 with h2 | h2 <;> simp [confirm, hfind, h1, h2, hexp]⟩
    · exact ⟨.invalidState,
        by rcases h2 with h2 | h2 <;> simp [confirm, hfind, h1, h2, hexp]⟩
  · intro h1 h2 r hr
    simp [confirm, hfind, h1, h2, hr]

/-- Witness for the amended C5: past its expiresAt = 10, at time 20 with
an always-accepting verifier, a concrete authorized intent and a concrete
pending intent are both rejected with Expired; an unexpired pending intent
is rejected; and a confirmed intent with a recorded receipt gets that
receipt back. -/
theorem c5_witness :
    (confirm (fun _ _ => true) 20
      ⟨fun j => if j = "i2" then
          some ⟨"i2", "https://m", 5, "0xs", "0xr", .authorized, 0, 10⟩ else none,
        fun _ => none, 0⟩ "i2" "sig").2 = .error .expired ∧
    (confirm (fun _ _ => true) 20
      ⟨fun j => if j = "i3" then
          some ⟨"i3", "https://m", 5, "0xs", "0xr", .pending, 0, 10⟩ else none,
        fun _ => none, 0⟩ "i3" "sig").2 = .error .expired ∧
    (∃ e, (confirm (fun _ _ => true) 4
      ⟨fun j => if j = "i3" then
          some ⟨"i3", "https://m", 5, "0xs", "0xr", .pending, 0, 10⟩ else none,
        fun _ => none, 0⟩ "i3" "sig").2 = .error e) ∧
    (confirm (fun _ _ => true) 20
      ⟨fun j => if j = "i1" then
          some ⟨"i1", "https://m", 5, "0xs", "0xr", .confirmed, 0, 10⟩ else none,
        fun j => if j = "i1" then
          some (mkReceipt ⟨"i1", "https://m", 5, "0xs", "0xr", .confirmed, 0, 10⟩ 3)
        else none, 1⟩ "i1" "sig").2 =
      .ok (mkReceipt ⟨"i1", "https://m", 5, "0xs", "0xr", .confirmed, 0, 10⟩ 3) := by
  refine ⟨?_, ?_, ?_, ?_⟩
  · exact (c5_amended (fun _ _ => true) 20
      ⟨fun j => if j = "i2" then
          some ⟨"i2", "https://m", 5, "0xs", "0xr", .authorized, 0, 10⟩ else none,
        fun _ => none, 0⟩ "i2" "sig"
      ⟨"i2", "https://m", 5, "0xs", "0xr", .authorized, 0, 10⟩
      (by simp)).1 (by decide) (Or.inl (by decide))
  · exact (c5_amended (fun _ _ => true) 20
      ⟨fun j => if j = "i3" then
          some ⟨"i3", "https://m", 5, "0xs", "0xr", .pending, 0, 10⟩ else none,
        fun _ => none, 0⟩ "i3" "sig"
      ⟨"i3", "https://m", 5, "0xs", "0xr", .pending, 0, 10⟩
      (by simp)).1 (by decide) (Or.inl (by decide))
  · exact (c5_amended (fun _ _ => true) 4
      ⟨fun j => if j = "i3" then
          some ⟨"i3", "https://m", 5, "0xs", "0xr", .pending, 0, 10⟩ else none,
        fun _ => none, 0⟩ "i3" "sig"
      ⟨"i3", "https://m", 5, "0xs", "0xr", .pending, 0, 10⟩
      (by simp)).2.1 (by decide) (Or.inl (by decide))
  · exact (c5_amended (fun _ _ => true) 20
      ⟨fun j => if j = "i1" then
          some ⟨"i1", "https://m", 5, "0xs", "0xr", .confirmed, 0, 10⟩ else none,
        fun j => if j = "i1" then
          some (mkReceipt ⟨"i1", "https://m", 5, "0xs", "0xr", .confirmed, 0, 10⟩ 3)
        else none, 1⟩ "i1" "sig"
      ⟨"i1", "https://m", 5, "0xs", "0xr", .confirmed, 0, 10⟩
      (by simp)).2.2 rfl rfl
      (mkReceipt ⟨"i1", "https://m", 5, "0xs", "0xr", .confirmed, 0, 10⟩ 3)
      (by simp)

/-- C6: for every evaluator configuration and every (url, amount), the
trustScore lies in [0, 100] (it is a natural number, so 0 ≤ trustScore
always), the risk tier is exactly the fixed thresholds applied to that
score, and canPay holds iff no check fails a hard-block rule and the score
is at least the configured minimum. -/
theorem c6_evaluate_spec (cfg : EvaluatorConfig) (url : String) (amount : Int) :
    (evaluate cfg url amount).trustScore ≤ 100 ∧
    (evaluate cfg url amount).risk =
      riskTier (evaluate cfg url amount).trustScore ∧
    ((evaluate cfg url amount).canPay = true ↔
      hardBlockFailed cfg url amount = false ∧
      cfg.minScore ≤ (evaluate cfg url amount).trustScore) := by
  refine ⟨?_, ?_, ?_⟩
  · show (cfg.checks.map (fun c => c.weight * ((c.run url amount).2).val)).sum /
        (cfg.checks.map (fun c => c.weight)).sum ≤ 100
    have hle : (cfg.checks.map
        (fun c => c.weight * ((c.run url amount).2).val)).sum ≤
        (cfg.checks.map (fun c => c.weight * 100)).sum := by
      apply List.sum_le_sum
      intro c _
      exact Nat.mul_le_mul_left _ (Fin.is_le _)
    have heq : (cfg.checks.map (fun c => c.weight * 100)).sum =
        (cfg.checks.map (fun c => c.weight)).sum * 100 := by
      rw [← List.sum_map_mul_right]
    rcases Nat.eq_zero_or_pos (cfg.checks.map (fun c => c.weight)).sum with h0 | hpos
    · simp [h0]
    · calc (cfg.checks.map
            (fun c => c.weight * ((c.run url amount).2).val)).sum /
            (cfg.checks.map (fun c => c.weight)).sum ≤
          ((cfg.checks.map (fun c => c.weight)).sum * 100) /
            (cfg.checks.map (fun c => c.weight)).sum :=
            Nat.div_le_div_right (heq ▸ hle)
        _ = 100 := Nat.mul_div_cancel_left 100 hpos
  · rfl
  · show (!hardBlockFailed cfg url amount &&
        decide (cfg.minScore ≤ (evaluate cfg url amount).trustScore)) = true ↔ _
    simp [Bool.and_eq_true]

end SnowRail
